import Mathlib

/-!
Verification development for the starlink-orbital-traffic-tracker repository.

The repository ships the full frontend (React + TypeScript) of the orbital
traffic analyzer; the backend engine (element parser, SGP4 propagator,
position batch engine, congestion and EO interference analyzers) is only
declared, documented and called from the files available here, so those
components are modelled from the specification, as flagged per definition.
Frontend computations (Sidebar altitude statistics and filtering, Dashboard
statistics, share-URL view state encoding and decoding) are embedded
directly from the TypeScript source.

Numbers held as IEEE doubles in the source are embedded as rationals;
timestamps are embedded as UTC seconds held in an integer.
-/

/- ### Data model (frontend src types, share.ts) -/

/-- The SatellitePosition record of the frontend type definitions:
identity, geodetic coordinates, speed and the batch timestamp. -/
structure SatellitePosition where
  satellite_id : Nat
  norad_id : Nat
  name : String
  lat : ℚ
  lon : ℚ
  alt_km : ℚ
  velocity_km_s : ℚ
  timestamp : ℤ
  deriving DecidableEq, Repr

/- ### Sidebar altitude statistics (Sidebar.tsx, altitudeStats) -/

/-- Accumulator mirroring the stats object literal of the altitudeStats
memo in Sidebar.tsx, one counter per named altitude band plus other. -/
structure AltitudeStats where
  band340_360 : Nat
  band500_570 : Nat
  band1100_1325 : Nat
  other : Nat
  deriving DecidableEq, Repr

/-- Membership in the 340-360 km band: the condition tested by the
first branch of the source chain, with inclusive bounds. -/
def inBand340 (sat : SatellitePosition) : Prop :=
  340 ≤ sat.alt_km ∧ sat.alt_km ≤ 360

/-- Membership in the 500-570 km band: the condition tested by the
second branch of the source chain, with inclusive bounds. -/
def inBand500 (sat : SatellitePosition) : Prop :=
  500 ≤ sat.alt_km ∧ sat.alt_km ≤ 570

/-- Membership in the 1100-1325 km band: the condition tested by the
third branch of the source chain, with inclusive bounds. -/
def inBand1100 (sat : SatellitePosition) : Prop :=
  1100 ≤ sat.alt_km ∧ sat.alt_km ≤ 1325

instance (sat : SatellitePosition) : Decidable (inBand340 sat) := by
  unfold inBand340; infer_instance

instance (sat : SatellitePosition) : Decidable (inBand500 sat) := by
  unfold inBand500; infer_instance

instance (sat : SatellitePosition) : Decidable (inBand1100 sat) := by
  unfold inBand1100; infer_instance

/-- One step of the forEach loop of altitudeStats in Sidebar.tsx: the
if / else-if chain increments exactly one counter per satellite. -/
def altStep (stats : AltitudeStats) (sat : SatellitePosition) : AltitudeStats :=
  if inBand340 sat then
    { stats with band340_360 := stats.band340_360 + 1 }
  else if inBand500 sat then
    { stats with band500_570 := stats.band500_570 + 1 }
  else if inBand1100 sat then
    { stats with band1100_1325 := stats.band1100_1325 + 1 }
  else
    { stats with other := stats.other + 1 }

/-- The altitudeStats computation of Sidebar.tsx: fold the counting step
over the position batch starting from all-zero counters. -/
def altitudeStats (positions : List SatellitePosition) : AltitudeStats :=
  positions.foldl altStep ⟨0, 0, 0, 0⟩

/- ### Dashboard statistics (Dashboard component, stats object) -/

/-- A JavaScript number as far as the Dashboard arithmetic needs it:
either a finite value, an infinity, or NaN. -/
inductive JSNum where
  | nan : JSNum
  | posInf : JSNum
  | negInf : JSNum
  | fin : ℚ → JSNum
  deriving DecidableEq, Repr

/-- JavaScript division on finite operands: division by zero yields NaN
when the numerator is zero as well, a signed infinity otherwise. -/
def jsDiv (a b : ℚ) : JSNum :=
  if b = 0 then
    if a = 0 then JSNum.nan
    else if 0 < a then JSNum.posInf
    else JSNum.negInf
  else JSNum.fin (a / b)

/-- JavaScript truthiness of a number: NaN and zero are falsy. -/
def jsTruthy : JSNum → Bool
  | JSNum.nan => false
  | JSNum.posInf => true
  | JSNum.negInf => true
  | JSNum.fin q => decide (q ≠ 0)

/-- The JavaScript logical-or on numbers: the left operand when truthy,
the right operand otherwise. -/
def jsOr (a b : JSNum) : JSNum :=
  if jsTruthy a then a else b

/-- The stats object computed by the Dashboard component: total count,
and the two reduce-sum averages, each guarded by a logical-or with 0. -/
structure DashboardStats where
  total : Nat
  avgAltitude : JSNum
  avgVelocity : JSNum
  deriving DecidableEq, Repr

/-- The Dashboard stats computation: positions.length, and for each of
altitude and velocity the reduce sum divided by positions.length with
the result coerced to 0 by the logical-or when it is falsy. -/
def dashboardStats (positions : List SatellitePosition) : DashboardStats :=
  { total := positions.length
    avgAltitude :=
      jsOr (jsDiv (positions.foldl (fun sum p => sum + p.alt_km) 0)
        (positions.length : ℚ)) (JSNum.fin 0)
    avgVelocity :=
      jsOr (jsDiv (positions.foldl (fun sum p => sum + p.velocity_km_s) 0)
        (positions.length : ℚ)) (JSNum.fin 0) }

/- ### Band disjointness facts -/

/-- The 340-360 and 500-570 bands are disjoint. -/
theorem band340_not_band500 (sat : SatellitePosition) (h : inBand340 sat) :
    ¬ inBand500 sat := by
  rcases h with ⟨_, h2⟩
  rintro ⟨h3, _⟩
  linarith

/-- The 340-360 and 1100-1325 bands are disjoint. -/
theorem band340_not_band1100 (sat : SatellitePosition) (h : inBand340 sat) :
    ¬ inBand1100 sat := by
  rcases h with ⟨_, h2⟩
  rintro ⟨h3, _⟩
  linarith

/-- The 500-570 and 1100-1325 bands are disjoint. -/
theorem band500_not_band1100 (sat : SatellitePosition) (h : inBand500 sat) :
    ¬ inBand1100 sat := by
  rcases h with ⟨_, h2⟩
  rintro ⟨h3, _⟩
  linarith

/-- Unfolded behaviour of the altitudeStats fold: starting from any
accumulator, each counter grows by the number of positions satisfying its
band predicate, the other counter by the number outside all three bands. -/
theorem foldl_altStep_spec (positions : List SatellitePosition) (acc : AltitudeStats) :
    (positions.foldl altStep acc).band340_360
        = acc.band340_360 + positions.countP (fun s => decide (inBand340 s))
    ∧ (positions.foldl altStep acc).band500_570
        = acc.band500_570 + positions.countP (fun s => decide (inBand500 s))
    ∧ (positions.foldl altStep acc).band1100_1325
        = acc.band1100_1325 + positions.countP (fun s => decide (inBand1100 s))
    ∧ (positions.foldl altStep acc).other
        = acc.other + positions.countP
            (fun s => decide (¬ inBand340 s ∧ ¬ inBand500 s ∧ ¬ inBand1100 s)) := by
  induction positions generalizing acc with
  | nil => simp
  | cons x xs ih =>
    rw [List.foldl_cons]
    rcases ih (altStep acc x) with ⟨e1, e2, e3, e4⟩
    by_cases h1 : inBand340 x
    · have h2 : ¬ inBand500 x := band340_not_band500 x h1
      have h3 : ¬ inBand1100 x := band340_not_band1100 x h1
      refine ⟨?_, ?_, ?_, ?_⟩
      · rw [e1, List.countP_cons_of_pos _ _ (by simpa using h1)]
        simp [altStep, h1]
        omega
      · rw [e2, List.countP_cons_of_neg _ _ (by simpa using h2)]
        simp [altStep, h1]
      · rw [e3, List.countP_cons_of_neg _ _ (by simpa using h3)]
        simp [altStep, h1]
      · rw [e4, List.countP_cons_of_neg _ _
          (by simp only [decide_eq_true_eq]; tauto)]
        simp [altStep, h1]
    · by_cases h2 : inBand500 x
      · have h3 : ¬ inBand1100 x := band500_not_band1100 x h2
        refine ⟨?_, ?_, ?_, ?_⟩
        · rw [e1, List.countP_cons_of_neg _ _ (by simpa using h1)]
          simp [altStep, h1, h2]
        · rw [e2, List.countP_cons_of_pos _ _ (by simpa using h2)]
          simp [altStep, h1, h2]
          omega
        · rw [e3, List.countP_cons_of_neg _ _ (by simpa using h3)]
          simp [altStep, h1, h2]
        · rw [e4, List.countP_cons_of_neg _ _
            (by simp only [decide_eq_true_eq]; tauto)]
          simp [altStep, h1, h2]
      · by_cases h3 : inBand1100 x
        · refine ⟨?_, ?_, ?_, ?_⟩
          · rw [e1, List.countP_cons_of_neg _ _ (by simpa using h1)]
            simp [altStep, h1, h2, h3]
          · rw [e2, List.countP_cons_of_neg _ _ (by simpa using h2)]
            simp [altStep, h1, h2, h3]
          · rw [e3, List.countP_cons_of_pos _ _ (by simpa using h3)]
            simp [altStep, h1, h2, h3]
            omega
          · rw [e4, List.countP_cons_of_neg _ _
              (by simp only [decide_eq_true_eq]; tauto)]
            simp [altStep, h1, h2, h3]
        · refine ⟨?_, ?_, ?_, ?_⟩
          · rw [e1, List.countP_cons_of_neg _ _ (by simpa using h1)]
            simp [altStep, h1, h2, h3]
          · rw [e2, List.countP_cons_of_neg _ _ (by simpa using h2)]
            simp [altStep, h1, h2, h3]
          · rw [e3, List.countP_cons_of_neg _ _ (by simpa using h3)]
            simp [altStep, h1, h2, h3]
          · rw [e4, List.countP_cons_of_pos _ _
              (by simp only [decide_eq_true_eq]; exact ⟨h1, h2, h3⟩)]
            simp [altStep, h1, h2, h3]
            omega

/-- The four band counts of a batch sum to the batch size, since every
position falls in exactly one of the four categories. -/
theorem countP_bands_sum (positions : List SatellitePosition) :
    positions.countP (fun s => decide (inBand340 s))
    + positions.countP (fun s => decide (inBand500 s))
    + positions.countP (fun s => decide (inBand1100 s))
    + positions.countP
        (fun s => decide (¬ inBand340 s ∧ ¬ inBand500 s ∧ ¬ inBand1100 s))
    = positions.length := by
  induction positions with
  | nil => simp
  | cons x xs ih =>
    rw [List.length_cons]
    by_cases h1 : inBand340 x
    · have h2 : ¬ inBand500 x := band340_not_band500 x h1
      have h3 : ¬ inBand1100 x := band340_not_band1100 x h1
      rw [List.countP_cons_of_pos _ _ (by simpa using h1),
        List.countP_cons_of_neg _ _ (by simpa using h2),
        List.countP_cons_of_neg _ _ (by simpa using h3),
        List.countP_cons_of_neg _ _ (by simp only [decide_eq_true_eq]; tauto)]
      omega
    · by_cases h2 : inBand500 x
      · have h3 : ¬ inBand1100 x := band500_not_band1100 x h2
        rw [List.countP_cons_of_neg _ _ (by simpa using h1),
          List.countP_cons_of_pos _ _ (by simpa using h2),
          List.countP_cons_of_neg _ _ (by simpa using h3),
          List.countP_cons_of_neg _ _ (by simp only [decide_eq_true_eq]; tauto)]
        omega
      · by_cases h3 : inBand1100 x
        · rw [List.countP_cons_of_neg _ _ (by simpa using h1),
            List.countP_cons_of_neg _ _ (by simpa using h2),
            List.countP_cons_of_pos _ _ (by simpa using h3),
            List.countP_cons_of_neg _ _ (by simp only [decide_eq_true_eq]; tauto)]
          omega
        · rw [List.countP_cons_of_neg _ _ (by simpa using h1),
            List.countP_cons_of_neg _ _ (by simpa using h2),
            List.countP_cons_of_neg _ _ (by simpa using h3),
            List.countP_cons_of_pos _ _
              (by simp only [decide_eq_true_eq]; exact ⟨h1, h2, h3⟩)]
          omega

/-- Claim C2: for every position batch, the Sidebar altitude distribution
classifies each position into exactly one of the three named altitude
bands or the other bucket (each counter equals the count of positions in
its band, the bands are pairwise disjoint and together with the other
bucket cover every position), and the four counters sum exactly to the
number of satellites in the batch. -/
theorem altitudeStats_partitions_batch (positions : List SatellitePosition) :
    (altitudeStats positions).band340_360
        + (altitudeStats positions).band500_570
        + (altitudeStats positions).band1100_1325
        + (altitudeStats positions).other = positions.length
    ∧ (altitudeStats positions).band340_360
        = positions.countP (fun s => decide (inBand340 s))
    ∧ (altitudeStats positions).band500_570
        = positions.countP (fun s => decide (inBand500 s))
    ∧ (altitudeStats positions).band1100_1325
        = positions.countP (fun s => decide (inBand1100 s))
    ∧ (altitudeStats positions).other
        = positions.countP
            (fun s => decide (¬ inBand340 s ∧ ¬ inBand500 s ∧ ¬ inBand1100 s))
    ∧ ∀ sat : SatellitePosition,
        (inBand340 sat ∨ inBand500 sat ∨ inBand1100 sat
          ∨ (¬ inBand340 sat ∧ ¬ inBand500 sat ∧ ¬ inBand1100 sat))
        ∧ ¬ (inBand340 sat ∧ inBand500 sat)
        ∧ ¬ (inBand340 sat ∧ inBand1100 sat)
        ∧ ¬ (inBand500 sat ∧ inBand1100 sat) := by
  rcases foldl_altStep_spec positions ⟨0, 0, 0, 0⟩ with ⟨e1, e2, e3, e4⟩
  have hsum := countP_bands_sum positions
  refine ⟨?_, ?_, ?_, ?_, ?_, ?_⟩
  · unfold altitudeStats
    rw [e1, e2, e3, e4]
    simpa using hsum
  · simpa using e1
  · simpa using e2
  · simpa using e3
  · simpa using e4
  · intro sat
    refine ⟨?_, ?_, ?_, ?_⟩
    · by_cases h1 : inBand340 sat
      · exact Or.inl h1
      · by_cases h2 : inBand500 sat
        · exact Or.inr (Or.inl h2)
        · by_cases h3 : inBand1100 sat
          · exact Or.inr (Or.inr (Or.inl h3))
          · exact Or.inr (Or.inr (Or.inr ⟨h1, h2, h3⟩))
    · rintro ⟨ha, hb⟩
      exact band340_not_band500 sat ha hb
    · rintro ⟨ha, hb⟩
      exact band340_not_band1100 sat ha hb
    · rintro ⟨ha, hb⟩
      exact band500_not_band1100 sat ha hb

/-- Claim C10: the Dashboard statistics are total on the empty batch: the
total is 0 and the guarded averages both evaluate to finite 0 rather than
propagating the NaN produced by the 0 / 0 division. -/
theorem dashboardStats_empty_total :
    dashboardStats [] = ⟨0, JSNum.fin 0, JSNum.fin 0⟩ := by
  rfl

/- ### Decimal rendering of identifiers (JavaScript Number toString) -/

/-- The character for one decimal digit value. -/
def digitChar (d : Nat) : Char :=
  match d with
  | 0 => '0'
  | 1 => '1'
  | 2 => '2'
  | 3 => '3'
  | 4 => '4'
  | 5 => '5'
  | 6 => '6'
  | 7 => '7'
  | 8 => '8'
  | 9 => '9'
  | _ => '0'

/-- The numeric value of one decimal digit character. -/
def digitVal (c : Char) : Nat := c.toNat - 48

/-- The decimal rendering of a natural number, as produced by the
JavaScript toString of an integral number: most significant digit first,
a single zero character for zero. -/
def natToString (n : Nat) : String :=
  if n = 0 then "0" else String.mk (((Nat.digits 10 n).map digitChar).reverse)

/- ### Sidebar satellite filtering (Sidebar.tsx, filteredSatellites) -/

/-- Naive substring test over character lists, modelling the JavaScript
String includes method. -/
def containsSub (pattern text : List Char) : Bool :=
  match text with
  | [] => pattern.isEmpty
  | _ :: rest => pattern.isPrefixOf text || containsSub pattern rest

/-- The search predicate of the Sidebar filter: the lowercased name
includes the lowercased term, or the decimal catalog id includes the raw
term. -/
def matchesSearch (searchTerm : String) (sat : SatellitePosition) : Bool :=
  containsSub searchTerm.toLower.toList sat.name.toLower.toList
  || containsSub searchTerm.toList (natToString sat.norad_id).toList

/-- The altitude filter predicate of the Sidebar: inclusive bounds per
named band, and every satellite passes for an unknown filter value. -/
def altMatch (altitudeFilter : String) (sat : SatellitePosition) : Bool :=
  if altitudeFilter = "340-360" then
    decide (340 ≤ sat.alt_km) && decide (sat.alt_km ≤ 360)
  else if altitudeFilter = "500-570" then
    decide (500 ≤ sat.alt_km) && decide (sat.alt_km ≤ 570)
  else if altitudeFilter = "1100-1325" then
    decide (1100 ≤ sat.alt_km) && decide (sat.alt_km ≤ 1325)
  else true

/-- Ordered insertion with respect to the name comparator used by the
Sidebar sort call. -/
def insertByName (x : SatellitePosition) :
    List SatellitePosition → List SatellitePosition
  | [] => [x]
  | y :: ys => if x.name ≤ y.name then x :: y :: ys else y :: insertByName x ys

/-- The sort call of the Sidebar, comparing satellites by display name
(the locale comparison of the source is embedded as the lexicographic
string order), realised as insertion sort. -/
def sortByName (l : List SatellitePosition) : List SatellitePosition :=
  l.foldr insertByName []

/-- The filteredSatellites memo of Sidebar.tsx: apply the search filter
when a term is set, the altitude filter when it is not the all value,
then sort by name. -/
def filteredSatellites (positions : List SatellitePosition)
    (searchTerm altitudeFilter : String) : List SatellitePosition :=
  let f1 := if searchTerm ≠ "" then positions.filter (matchesSearch searchTerm)
            else positions
  let f2 := if altitudeFilter ≠ "all" then f1.filter (altMatch altitudeFilter)
            else f1
  sortByName f2

/-- Ordered insertion is a permutation of consing. -/
theorem insertByName_perm (x : SatellitePosition) (l : List SatellitePosition) :
    List.Perm (insertByName x l) (x :: l) := by
  induction l with
  | nil => simp [insertByName]
  | cons y ys ih =>
    by_cases hxy : x.name ≤ y.name
    · simp [insertByName, hxy]
    · simp only [insertByName, if_neg hxy]
      exact List.Perm.trans (List.Perm.cons y ih) (List.Perm.swap x y ys)

/-- The Sidebar sort is a permutation of its input. -/
theorem sortByName_perm (l : List SatellitePosition) :
    List.Perm (sortByName l) l := by
  induction l with
  | nil => simp [sortByName]
  | cons x xs ih =>
    have h1 : sortByName (x :: xs) = insertByName x (sortByName xs) := rfl
    rw [h1]
    exact List.Perm.trans (insertByName_perm x (sortByName xs)) (List.Perm.cons x ih)

/-- Ordered insertion preserves sortedness by name. -/
theorem insertByName_sorted (x : SatellitePosition) (l : List SatellitePosition)
    (h : l.Pairwise (fun a b => a.name ≤ b.name)) :
    (insertByName x l).Pairwise (fun a b => a.name ≤ b.name) := by
  induction l with
  | nil => simp [insertByName]
  | cons y ys ih =>
    rcases List.pairwise_cons.mp h with ⟨hy, hys⟩
    by_cases hxy : x.name ≤ y.name
    · simp only [insertByName, if_pos hxy]
      refine List.pairwise_cons.mpr ⟨?_, h⟩
      intro z hz
      rcases List.mem_cons.mp hz with hz | hz
      · rw [hz]; exact hxy
      · exact le_trans hxy (hy z hz)
    · simp only [insertByName, if_neg hxy]
      refine List.pairwise_cons.mpr ⟨?_, ih hys⟩
      intro z hz
      have hz2 : z = x ∨ z ∈ ys :=
        List.mem_cons.mp ((insertByName_perm x ys).mem_iff.mp hz)
      rcases hz2 with hz | hz
      · rw [hz]; exact le_of_not_le hxy
      · exact hy z hz

/-- The Sidebar sort produces a list sorted by name. -/
theorem sortByName_sorted (l : List SatellitePosition) :
    (sortByName l).Pairwise (fun a b => a.name ≤ b.name) := by
  induction l with
  | nil => simp [sortByName]
  | cons x xs ih => exact insertByName_sorted x (sortByName xs) ih

/-- Claim C9: for an altitude filter naming one of the three bands, the
Sidebar filtered list is, up to the name ordering applied at the end,
exactly the set of positions matching the search term (when one is set)
whose altitude lies within the inclusive bounds of the band, and the result
is sorted by satellite name. -/
theorem filteredSatellites_exact (positions : List SatellitePosition)
    (searchTerm altitudeFilter : String)
    (h : altitudeFilter = "340-360" ∨ altitudeFilter = "500-570"
      ∨ altitudeFilter = "1100-1325") :
    List.Perm (filteredSatellites positions searchTerm altitudeFilter)
      (positions.filter (fun sat =>
        (searchTerm == "" || matchesSearch searchTerm sat)
        && altMatch altitudeFilter sat))
    ∧ (filteredSatellites positions searchTerm altitudeFilter).Pairwise
        (fun a b => a.name ≤ b.name) := by
  have hall : altitudeFilter ≠ "all" := by
    rcases h with h | h | h <;> rw [h] <;> decide
  constructor
  · by_cases hterm : searchTerm = ""
    · have e1 : filteredSatellites positions searchTerm altitudeFilter
          = sortByName (positions.filter (altMatch altitudeFilter)) := by
        simp only [filteredSatellites]
        rw [if_pos hall, if_neg (by simp [hterm])]
      have e2 : positions.filter (fun sat =>
            (searchTerm == "" || matchesSearch searchTerm sat)
            && altMatch altitudeFilter sat)
          = positions.filter (altMatch altitudeFilter) := by
        refine List.filter_congr ?_
        intro x _
        simp [hterm]
      rw [e1, e2]
      exact sortByName_perm _
    · have e1 : filteredSatellites positions searchTerm altitudeFilter
          = sortByName ((positions.filter (matchesSearch searchTerm)).filter
              (altMatch altitudeFilter)) := by
        simp only [filteredSatellites]
        rw [if_pos hall, if_pos hterm]
      have e2 : (positions.filter (matchesSearch searchTerm)).filter
            (altMatch altitudeFilter)
          = positions.filter (fun sat =>
              altMatch altitudeFilter sat && matchesSearch searchTerm sat) :=
        List.filter_filter _ _
      have e3 : positions.filter (fun sat =>
            (searchTerm == "" || matchesSearch searchTerm sat)
            && altMatch altitudeFilter sat)
          = positions.filter (fun sat =>
              altMatch altitudeFilter sat && matchesSearch searchTerm sat) := by
        refine List.filter_congr ?_
        intro x _
        have hbeq : (searchTerm == "") = false := by
          simpa using hterm
        rw [hbeq]
        simp [Bool.and_comm]
      rw [e1, e2, e3]
      exact sortByName_perm _
  · by_cases hterm : searchTerm = ""
    · have e1 : filteredSatellites positions searchTerm altitudeFilter
          = sortByName (positions.filter (altMatch altitudeFilter)) := by
        simp only [filteredSatellites]
        rw [if_pos hall, if_neg (by simp [hterm])]
      rw [e1]
      exact sortByName_sorted _
    · have e1 : filteredSatellites positions searchTerm altitudeFilter
          = sortByName ((positions.filter (matchesSearch searchTerm)).filter
              (altMatch altitudeFilter)) := by
        simp only [filteredSatellites]
        rw [if_pos hall, if_pos hterm]
      rw [e1]
      exact sortByName_sorted _

/-- A two-satellite batch used to witness the Sidebar filter theorem. -/
def demoSidebarBatch : List SatellitePosition :=
  [⟨1, 100, "B-sat", 10, 20, 550, 76/10, 0⟩,
   ⟨2, 200, "A-sat", 30, 40, 350, 77/10, 0⟩]

/-- Witness for claim C9 at a concrete batch and the 500-570 band. -/
theorem filteredSatellites_exact_witness :
    (("500-570" : String) = "340-360" ∨ ("500-570" : String) = "500-570"
      ∨ ("500-570" : String) = "1100-1325")
    ∧ (List.Perm (filteredSatellites demoSidebarBatch "" "500-570")
        (demoSidebarBatch.filter (fun sat =>
          (("" : String) == "" || matchesSearch "" sat) && altMatch "500-570" sat))
      ∧ (filteredSatellites demoSidebarBatch "" "500-570").Pairwise
          (fun a b => a.name ≤ b.name)) :=
  ⟨Or.inr (Or.inl rfl),
    filteredSatellites_exact demoSidebarBatch "" "500-570" (Or.inr (Or.inl rfl))⟩

/- ### Numeric string parsing (JavaScript parseInt and parseFloat) -/

/-- Parse a maximal leading run of decimal digits, as parseInt does after
sign handling; fails when no digit is present. -/
def parseLeadingNat (cs : List Char) : Option Nat :=
  let ds := cs.takeWhile Char.isDigit
  if ds.isEmpty then none
  else some (Nat.ofDigits 10 ((ds.map digitVal).reverse))

/-- The JavaScript parseInt in base 10 on a trimmed string: optional
sign, then leading digits; the NaN outcome is modelled as none. -/
def jsParseInt (s : String) : Option ℤ :=
  match s.toList with
  | [] => none
  | c :: rest =>
    if c = '-' then (parseLeadingNat rest).map (fun n => -(n : ℤ))
    else if c = '+' then (parseLeadingNat rest).map (fun n => (n : ℤ))
    else (parseLeadingNat (c :: rest)).map (fun n => (n : ℤ))

/-- The source stores the parseInt result directly; the NaN case, which
no theorem below exercises, is modelled as 0. -/
def jsParseIntD (s : String) : ℤ := (jsParseInt s).getD 0

/-- Parse an unsigned decimal literal: digits, optionally a point and
fractional digits; fails on trailing content or when no digit exists. -/
def parseUnsignedDecimal (cs : List Char) : Option ℚ :=
  let ip := cs.takeWhile Char.isDigit
  let rest := cs.dropWhile Char.isDigit
  match rest with
  | [] =>
    if ip.isEmpty then none
    else some ((Nat.ofDigits 10 ((ip.map digitVal).reverse) : ℕ) : ℚ)
  | c :: frac =>
    if c = '.' ∧ frac.all Char.isDigit ∧ ¬ (ip.isEmpty ∧ frac.isEmpty) then
      some (((Nat.ofDigits 10 ((ip.map digitVal).reverse) : ℕ) : ℚ)
        + ((Nat.ofDigits 10 ((frac.map digitVal).reverse) : ℕ) : ℚ)
          / 10 ^ frac.length)
    else none

/-- Parse a decimal literal with an optional sign. -/
def parseSignedDecimal (cs : List Char) : Option ℚ :=
  match cs with
  | '-' :: rest => (parseUnsignedDecimal rest).map (fun q => -q)
  | '+' :: rest => parseUnsignedDecimal rest
  | _ => parseUnsignedDecimal cs

/-- The JavaScript parseFloat on the strings this application produces;
the NaN outcome for unparsable input, which no theorem below exercises,
is modelled as 0. -/
def jsParseFloat (s : String) : ℚ :=
  (parseSignedDecimal (s.toList.dropWhile (fun c => c = ' '))).getD 0

/-- The decimal rendering of an integer, as the JavaScript toString of
an integral number produces it. -/
def intToString (n : ℤ) : String :=
  if n < 0 then String.mk ('-' :: (natToString n.natAbs).toList)
  else natToString n.natAbs

/-- Left-pad with zero characters to a requested width. -/
def padLeftZeros (width : Nat) (s : String) : String :=
  String.mk (List.replicate (width - s.toList.length) '0' ++ s.toList)

/-- The JavaScript toFixed on a finite value: scale, round, and render
with the requested number of fractional digits. -/
def qToFixed (digits : Nat) (q : ℚ) : String :=
  let scaled : ℤ := ⌊q * (10 : ℚ) ^ digits + 1 / 2⌋
  let sign : String := if scaled < 0 then "-" else ""
  let a : Nat := scaled.natAbs
  if digits = 0 then sign ++ natToString a
  else sign ++ natToString (a / 10 ^ digits) ++ "."
    ++ padLeftZeros digits (natToString (a % 10 ^ digits))

/- ### Round-trip facts about decimal rendering -/

/-- Digit characters are decimal digits. -/
theorem digitChar_isDigit (d : Nat) (h : d < 10) : (digitChar d).isDigit = true := by
  interval_cases d <;> decide

/-- The digit value inverts the digit character on digit values. -/
theorem digitVal_digitChar (d : Nat) (h : d < 10) : digitVal (digitChar d) = d := by
  interval_cases d <;> decide

/-- Every character of a rendered natural number is a decimal digit. -/
theorem natToString_isDigit (n : Nat) :
    ∀ c ∈ (natToString n).toList, c.isDigit = true := by
  intro c hc
  unfold natToString at hc
  by_cases h : n = 0
  · rw [if_pos h] at hc
    have hc0 : c = '0' := by simpa using hc
    rw [hc0]; decide
  · rw [if_neg h] at hc
    simp only [String.toList] at hc
    rcases List.mem_reverse.mp hc with hc2
    rcases List.mem_map.mp hc2 with ⟨d, hd, hdc⟩
    rw [← hdc]
    exact digitChar_isDigit d (Nat.digits_lt_base (by norm_num) hd)

/-- The rendered natural number has at least one character. -/
theorem natToString_toList_ne_nil (n : Nat) : (natToString n).toList ≠ [] := by
  unfold natToString
  by_cases h : n = 0
  · rw [if_pos h]; decide
  · rw [if_neg h]
    simp only [String.toList]
    simp only [ne_eq, List.reverse_eq_nil_iff, List.map_eq_nil_iff]
    exact Nat.digits_ne_nil_iff_ne_zero.mpr h

/-- Parsing the rendering of a natural number returns that number. -/
theorem parseLeadingNat_natToString (n : Nat) :
    parseLeadingNat (natToString n).toList = some n := by
  have hall : (natToString n).toList.takeWhile Char.isDigit = (natToString n).toList :=
    List.takeWhile_eq_self_iff.mpr (natToString_isDigit n)
  unfold parseLeadingNat
  simp only [hall]
  rw [if_neg (by simpa using natToString_toList_ne_nil n)]
  congr 1
  by_cases h : n = 0
  · subst h; decide
  · unfold natToString
    rw [if_neg h]
    simp only [String.toList]
    rw [List.map_reverse, List.reverse_reverse]
    rw [List.map_map]
    have : (Nat.digits 10 n).map (digitVal ∘ digitChar) = (Nat.digits 10 n).map id :=
      List.map_congr_left (fun d hd => by
        simpa using digitVal_digitChar d (Nat.digits_lt_base (by norm_num) hd))
    rw [this, List.map_id]
    exact Nat.ofDigits_digits 10 n

/-- A decimal digit character is neither a sign character. -/
theorem isDigit_not_sign (c : Char) (h : c.isDigit = true) : c ≠ '-' ∧ c ≠ '+' := by
  constructor
  · intro hc; rw [hc] at h; exact absurd h (by decide)
  · intro hc; rw [hc] at h; exact absurd h (by decide)

/-- Reduction of parseInt once the character list of the string is
exposed. -/
theorem jsParseInt_eq_of_toList (s : String) (c : Char) (rest : List Char)
    (h : s.toList = c :: rest) :
    jsParseInt s
      = (if c = '-' then (parseLeadingNat rest).map (fun n => -(n : ℤ))
        else if c = '+' then (parseLeadingNat rest).map (fun n => (n : ℤ))
        else (parseLeadingNat (c :: rest)).map (fun n => (n : ℤ))) := by
  unfold jsParseInt
  rw [h]

/-- Parsing the rendering of an integer returns that integer. -/
theorem jsParseInt_intToString (n : ℤ) : jsParseInt (intToString n) = some n := by
  by_cases h : n < 0
  · have e1 : intToString n = String.mk ('-' :: (natToString n.natAbs).toList) := by
      unfold intToString; rw [if_pos h]
    rw [e1]
    have e2 : (String.mk ('-' :: (natToString n.natAbs).toList)).toList
        = '-' :: (natToString n.natAbs).toList := rfl
    rw [jsParseInt_eq_of_toList _ _ _ e2, if_pos rfl, parseLeadingNat_natToString]
    show some (-(n.natAbs : ℤ)) = some n
    congr 1
    omega
  · have e1 : intToString n = natToString n.natAbs := by
      unfold intToString; rw [if_neg h]
    rw [e1]
    rcases hl : (natToString n.natAbs).toList with _ | ⟨c, rest⟩
    · exact absurd hl (natToString_toList_ne_nil n.natAbs)
    · have hcd : c.isDigit = true :=
        natToString_isDigit n.natAbs c (by rw [hl]; exact List.mem_cons_self c rest)
      rcases isDigit_not_sign c hcd with ⟨hm, hp⟩
      rw [jsParseInt_eq_of_toList _ _ _ hl, if_neg hm, if_neg hp, ← hl,
        parseLeadingNat_natToString]
      show some ((n.natAbs : ℤ)) = some n
      congr 1
      omega

/-- The rendering of an integer is a nonempty string. -/
theorem intToString_ne_empty (n : ℤ) : ((intToString n) == "") = false := by
  apply beq_eq_false_iff_ne.mpr
  intro hcontra
  have : (intToString n).toList = [] := by rw [hcontra]; rfl
  unfold intToString at this
  by_cases h : n < 0
  · rw [if_pos h] at this
    exact List.cons_ne_nil _ _ this
  · rw [if_neg h] at this
    exact natToString_toList_ne_nil n.natAbs this

/- ### Share-URL view state (share.ts, encodeViewState and decodeViewState) -/

/-- The ViewState interface of share.ts: every field optional, matching
the undefined checks of the source. -/
structure ViewState where
  lat : Option ℚ
  lon : Option ℚ
  altitude : Option ℚ
  heading : Option ℚ
  pitch : Option ℚ
  selectedSatellite : Option ℤ
  showOrbit : Option Bool
  altitudeFilter : Option String
  deriving DecidableEq, Repr

/-- The URLSearchParams value is modelled as the ordered key-value list
it holds; its serialize and parse pair, which is platform library code
and round-trips by its own contract, is elided so that the encode and
decode logic of the repository meet on this list directly. -/
abbrev QueryParams := List (String × String)

/-- One conditional params.set call of encodeViewState: a singleton for
a defined field, nothing otherwise. -/
def setIfSome (key : String) : Option String → QueryParams
  | none => []
  | some v => [(key, v)]

/-- The encodeViewState function of share.ts: set each defined field
under its short key, numbers via toFixed or toString, the orbit flag as
a 1 or 0 literal, the filter verbatim. -/
def encodeViewState (state : ViewState) : QueryParams :=
  setIfSome "lat" (state.lat.map (qToFixed 4))
  ++ setIfSome "lon" (state.lon.map (qToFixed 4))
  ++ setIfSome "alt" (state.altitude.map (qToFixed 0))
  ++ setIfSome "h" (state.heading.map (qToFixed 2))
  ++ setIfSome "p" (state.pitch.map (qToFixed 2))
  ++ setIfSome "sat" (state.selectedSatellite.map intToString)
  ++ setIfSome "orbit" (state.showOrbit.map (fun b => if b then "1" else "0"))
  ++ setIfSome "filter" state.altitudeFilter

/-- The params.get lookup: value of the first pair with the given key. -/
def getParam (params : QueryParams) (key : String) : Option String :=
  (params.find? (fun p => p.1 == key)).map Prod.snd

/-- JavaScript truthiness of a string: only the empty string is falsy. -/
def truthy (s : String) : Bool := !(s == "")

/-- One numeric field of decodeViewState: assigned the parseFloat value
when the parameter is present and truthy. -/
def decodeNum (params : QueryParams) (key : String) : Option ℚ :=
  match getParam params key with
  | some s => if truthy s then some (jsParseFloat s) else none
  | none => none

/-- The selected-satellite field of decodeViewState: assigned the
parseInt value when the parameter is present and truthy. -/
def decodeInt (params : QueryParams) (key : String) : Option ℤ :=
  match getParam params key with
  | some s => if truthy s then some (jsParseIntD s) else none
  | none => none

/-- The orbit flag of decodeViewState: present and truthy strings decode
to the comparison with the 1 literal. -/
def decodeBoolFlag (params : QueryParams) (key : String) : Option Bool :=
  match getParam params key with
  | some s => if truthy s then some (s == "1") else none
  | none => none

/-- The filter field of decodeViewState: kept verbatim when present and
truthy. -/
def decodeStr (params : QueryParams) (key : String) : Option String :=
  match getParam params key with
  | some s => if truthy s then some s else none
  | none => none

/-- The decodeViewState function of share.ts: read each short key and
conditionally assign the corresponding field. -/
def decodeViewState (params : QueryParams) : ViewState :=
  { lat := decodeNum params "lat"
    lon := decodeNum params "lon"
    altitude := decodeNum params "alt"
    heading := decodeNum params "h"
    pitch := decodeNum params "p"
    selectedSatellite := decodeInt params "sat"
    showOrbit := decodeBoolFlag params "orbit"
    altitudeFilter := decodeStr params "filter" }

/-- Lookup walks past a pair whose key differs. -/
theorem getParam_cons_ne (k key v : String) (ps : QueryParams)
    (h : (k == key) = false) : getParam ((k, v) :: ps) key = getParam ps key := by
  simp [getParam, List.find?, h]

/-- Lookup returns the value of the first pair whose key matches. -/
theorem getParam_cons_eq (k key v : String) (ps : QueryParams)
    (h : (k == key) = true) : getParam ((k, v) :: ps) key = some v := by
  simp [getParam, List.find?, h]

/-- Lookup in the empty parameter list yields nothing. -/
theorem getParam_nil (key : String) : getParam [] key = none := rfl

/-- Claim C8: round-trip of the share-URL view state. For every view
state whose only defined fields are an integral selected satellite, the
orbit flag, and a nonempty altitude filter, decoding the encoded
parameters returns the same view state. -/
theorem decode_encode_view_state (n : ℤ) (b : Bool) (f : String) (hf : f ≠ "") :
    decodeViewState (encodeViewState
      ⟨none, none, none, none, none, some n, some b, some f⟩)
    = ⟨none, none, none, none, none, some n, some b, some f⟩ := by
  have henc : encodeViewState ⟨none, none, none, none, none, some n, some b, some f⟩
      = [("sat", intToString n), ("orbit", if b then "1" else "0"), ("filter", f)] := by
    simp [encodeViewState, setIfSome]
  rw [henc]
  have hsat : getParam [("sat", intToString n), ("orbit", if b then "1" else "0"),
      ("filter", f)] "sat" = some (intToString n) :=
    getParam_cons_eq _ _ _ _ (by decide)
  have horbit : getParam [("sat", intToString n), ("orbit", if b then "1" else "0"),
      ("filter", f)] "orbit" = some (if b then "1" else "0") := by
    rw [getParam_cons_ne _ _ _ _ (by decide)]
    exact getParam_cons_eq _ _ _ _ (by decide)
  have hfil : getParam [("sat", intToString n), ("orbit", if b then "1" else "0"),
      ("filter", f)] "filter" = some f := by
    rw [getParam_cons_ne _ _ _ _ (by decide), getParam_cons_ne _ _ _ _ (by decide)]
    exact getParam_cons_eq _ _ _ _ (by decide)
  have htruthy_sat : truthy (intToString n) = true := by
    unfold truthy
    rw [intToString_ne_empty n]
    rfl
  have htruthy_orbit : truthy (if b then "1" else "0") = true := by
    cases b <;> decide
  have htruthy_f : truthy f = true := by
    unfold truthy
    rw [beq_eq_false_iff_ne.mpr hf]
    rfl
  have horbit_val : ((if b then "1" else "0") == "1") = b := by
    cases b <;> decide
  unfold decodeViewState
  congr 1
  · unfold decodeInt
    rw [hsat]
    simp only [htruthy_sat, if_true]
    unfold jsParseIntD
    rw [jsParseInt_intToString n]
    rfl
  · unfold decodeBoolFlag
    rw [horbit]
    simp only [htruthy_orbit, if_true, horbit_val]
  · unfold decodeStr
    rw [hfil]
    simp only [htruthy_f, if_true]

/-- Witness for claim C8 at a concrete satellite id, flag and filter. -/
theorem decode_encode_view_state_witness :
    (("500-570" : String) ≠ "")
    ∧ decodeViewState (encodeViewState
        ⟨none, none, none, none, none, some 44713, some true, some "500-570"⟩)
      = ⟨none, none, none, none, none, some 44713, some true, some "500-570"⟩ :=
  ⟨by decide, decode_encode_view_state 44713 true "500-570" (by decide)⟩

/- ### Orbital engine data model (spec section 3; backend absent from
the shipped sources and modelled from the specification) -/

/-- Modelled from the spec: OrbitalState, the typed decoding of one
element-set record: identity, epoch, and the orbital element fields. -/
structure OrbitalState where
  catalogId : Nat
  name : String
  constellation : String
  epoch : ℤ
  inclination : ℚ
  raan : ℚ
  eccentricity : ℚ
  argPerigee : ℚ
  meanAnomaly : ℚ
  meanMotion : ℚ
  dragTerm : ℚ
  deriving DecidableEq, Repr

/-- Modelled from the spec: GeodeticPosition, one propagated fix. -/
structure GeodeticPosition where
  catalogId : Nat
  timestamp : ℤ
  lat : ℚ
  lon : ℚ
  alt_km : ℚ
  speed_km_s : ℚ
  deriving DecidableEq, Repr

/-- Fold an angle in degrees into the half-open interval from -180 to
180, the longitude normalization of the geodetic conversion. -/
def wrapDeg180 (x : ℚ) : ℚ := x - 360 * ⌊(x + 180) / 360⌋

/-- The wrapped angle lies in the half-open interval from -180 to 180. -/
theorem wrapDeg180_bounds (x : ℚ) : -180 ≤ wrapDeg180 x ∧ wrapDeg180 x < 180 := by
  have h1 := Int.floor_le ((x + 180) / 360)
  have h2 := Int.lt_floor_add_one ((x + 180) / 360)
  have h1s := mul_le_mul_of_nonneg_right h1 (show (0 : ℚ) ≤ 360 by norm_num)
  have h2s := mul_lt_mul_of_pos_right h2 (show (0 : ℚ) < 360 by norm_num)
  have hy : (x + 180) / 360 * 360 = x + 180 := by ring
  unfold wrapDeg180
  constructor <;> [linarith [h1s, hy]; linarith [h2s, hy]]

/-- Fold an angle in degrees into the closed interval from -90 to 90 by
reflecting across the poles, the latitude normalization of the geodetic
conversion. -/
def latFold (x : ℚ) : ℚ :=
  let m := wrapDeg180 x
  if 90 < m then 180 - m else if m < -90 then -180 - m else m

/-- The folded latitude lies between -90 and 90 inclusive. -/
theorem latFold_bounds (x : ℚ) : -90 ≤ latFold x ∧ latFold x ≤ 90 := by
  obtain ⟨h1, h2⟩ := wrapDeg180_bounds x
  simp only [latFold]
  by_cases ha : 90 < wrapDeg180 x
  · rw [if_pos ha]
    constructor <;> linarith
  · rw [if_neg ha]
    by_cases hb : wrapDeg180 x < -90
    · rw [if_pos hb]
      constructor <;> linarith
    · rw [if_neg hb]
      constructor <;> linarith

/-- Sidereal rotation of the Earth at a UTC instant, in degrees. -/
def earthRotationDeg (t : ℤ) : ℚ := 360 * (t : ℚ) / 86164

/-- Modelled from the spec: the Propagator (the Skyfield SGP4 backend is
absent from the shipped sources). The secular drift of the argument of
latitude follows the mean motion; the geodetic conversion normalizes
latitude into the closed -90 to 90 range and longitude into the
half-open -180 to 180 range, as the specification documents. Altitude
and speed use a linearized placeholder of the orbital-shell geometry
(the exact values leave the rationals); no claim below constrains them. -/
def propagate (s : OrbitalState) (t : ℤ) : GeodeticPosition :=
  let dtMin : ℚ := ((t - s.epoch : ℤ) : ℚ) / 60
  let argLat : ℚ := s.argPerigee + s.meanAnomaly + s.meanMotion * 360 * dtMin / 1440
  let alt : ℚ := 6371 * ((16 : ℚ) - s.meanMotion) / 10
  { catalogId := s.catalogId
    timestamp := t
    lat := latFold (s.inclination * latFold argLat / 90)
    lon := wrapDeg180 (s.raan + argLat - earthRotationDeg t)
    alt_km := alt
    speed_km_s := s.meanMotion * (6371 + alt) / 13751 }

/-- Claim C6: for every orbital state and every target timestamp (in
particular those inside an EO analysis window), the modelled Propagator
returns a latitude in the closed interval from -90 to 90 and a longitude
normalized consistently into the half-open interval from -180 to 180. -/
theorem propagate_lat_lon_normalized (s : OrbitalState) (t : ℤ) :
    -90 ≤ (propagate s t).lat ∧ (propagate s t).lat ≤ 90
    ∧ -180 ≤ (propagate s t).lon ∧ (propagate s t).lon < 180 :=
  ⟨(latFold_bounds _).1, (latFold_bounds _).2,
    (wrapDeg180_bounds _).1, (wrapDeg180_bounds _).2⟩

/- ### Position batch engine (spec section 4.3; spec-modelled) -/

/-- Modelled from the spec: PositionBatch, a point-in-time snapshot
mapping catalog ids to positions plus the computation timestamp. -/
structure PositionBatch where
  computedAt : ℤ
  entries : List (Nat × GeodeticPosition)
  deriving DecidableEq, Repr

/-- Modelled from the spec: propagate every tracked state to the
requested instant and collect the snapshot. -/
def computeBatch (store : List OrbitalState) (t : ℤ) : PositionBatch :=
  { computedAt := t
    entries := store.map (fun s => (s.catalogId, propagate s t)) }

/-- The caching granularity in seconds. -/
def cacheGranularitySeconds : ℤ := 10

/-- The cache key: the timestamp truncated to the caching granularity. -/
def truncateTimestamp (t : ℤ) : ℤ := t / cacheGranularitySeconds

/-- The batch cache: the truncated key of the cached batch, and the
batch itself. -/
structure BatchCache where
  key : ℤ
  batch : PositionBatch
  deriving DecidableEq, Repr

/-- Modelled from the spec: get_positions with its time-bounded cache.
A request whose truncated timestamp matches the cached key reuses the
prior batch; otherwise a fresh batch is computed and swapped in whole. -/
def get_positions (store : List OrbitalState) (cache : Option BatchCache)
    (t : ℤ) : PositionBatch × Option BatchCache :=
  let key := truncateTimestamp t
  match cache with
  | some c =>
    if c.key = key then (c.batch, some c)
    else
      let b := computeBatch store t
      (b, some ⟨key, b⟩)
  | none =>
    let b := computeBatch store t
    (b, some ⟨key, b⟩)

/-- Claim C5: two get_positions calls whose timestamps truncate to the
same cache window return identical batch content, the second reusing
the state left by the first. -/
theorem get_positions_idempotent (store : List OrbitalState)
    (cache : Option BatchCache) (t1 t2 : ℤ)
    (h : truncateTimestamp t1 = truncateTimestamp t2) :
    (get_positions store (get_positions store cache t1).2 t2).1
      = (get_positions store cache t1).1 := by
  cases cache with
  | none =>
    simp only [get_positions]
    rw [if_pos h]
  | some c =>
    simp only [get_positions]
    by_cases hc : c.key = truncateTimestamp t1
    · rw [if_pos hc]
      simp only [get_positions]
      rw [if_pos (hc.trans h)]
    · rw [if_neg hc]
      simp only [get_positions]
      rw [if_pos h]

/-- A one-satellite element store used by the concrete witnesses. -/
def demoStore : List OrbitalState :=
  [⟨44713, "STARLINK-1010", "starlink", 0, 53, 120, 1/10000, 90, 45, 15, 0⟩]

/-- Witness for claim C5: two calls three seconds apart inside the same
ten-second cache window, starting from an empty cache. -/
theorem get_positions_idempotent_witness :
    truncateTimestamp 3 = truncateTimestamp 7
    ∧ (get_positions demoStore (get_positions demoStore none 3).2 7).1
      = (get_positions demoStore none 3).1 :=
  ⟨by decide, get_positions_idempotent demoStore none 3 7 (by decide)⟩

/- ### Orbit path generator (spec section 4.5; spec-modelled) -/

/-- Modelled from the spec: the error for a catalog id without an
orbital state. -/
inductive UnknownSatelliteError where
  | unknownCatalogId : Nat → UnknownSatelliteError
  deriving DecidableEq, Repr

/-- Modelled from the spec: OrbitPath, the fully materialized ordered
sample sequence for one satellite. -/
structure OrbitPath where
  catalogId : Nat
  name : String
  points : List GeodeticPosition
  duration_minutes : Nat
  deriving DecidableEq, Repr

/-- The fixed sampling step of the orbit path generator, in seconds. -/
def orbitStepSeconds : ℤ := 60

/-- Modelled from the spec: get_orbit_path samples the Propagator at the
fixed step from now through now plus the requested duration, and fails
for a catalog id that has no orbital state. -/
def get_orbit_path (store : List OrbitalState) (catalogId : Nat)
    (durationMinutes : Nat) (now : ℤ) : Except UnknownSatelliteError OrbitPath :=
  match store.find? (fun s => s.catalogId == catalogId) with
  | none => Except.error (UnknownSatelliteError.unknownCatalogId catalogId)
  | some s =>
    Except.ok
      { catalogId := catalogId
        name := s.name
        points := (List.range (durationMinutes + 1)).map
          (fun (k : Nat) => propagate s (now + (k : ℤ) * orbitStepSeconds))
        duration_minutes := durationMinutes }

/-- Claim C7: every successfully generated orbit path is a finite
ordered sequence whose timestamps are strictly increasing and whose
first timestamp is at least the now at which the path was requested. -/
theorem get_orbit_path_monotone (store : List OrbitalState) (catalogId : Nat)
    (durationMinutes : Nat) (now : ℤ) (path : OrbitPath)
    (h : get_orbit_path store catalogId durationMinutes now = Except.ok path) :
    path.points.Pairwise (fun a b => a.timestamp < b.timestamp)
    ∧ ∀ p, path.points.head? = some p → now ≤ p.timestamp := by
  unfold get_orbit_path at h
  cases hf : store.find? (fun s => s.catalogId == catalogId) with
  | none =>
    rw [hf] at h
    exact absurd h (by simp)
  | some s =>
    rw [hf] at h
    have hpath : path
        = { catalogId := catalogId
            name := s.name
            points := (List.range (durationMinutes + 1)).map
              (fun (k : Nat) => propagate s (now + (k : ℤ) * orbitStepSeconds))
            duration_minutes := durationMinutes } := by
      cases h
      rfl
    rw [hpath]
    constructor
    · refine List.pairwise_map.mpr ?_
      refine List.Pairwise.imp ?_ (List.pairwise_lt_range (durationMinutes + 1))
      intro i j hij
      show (propagate s (now + (i : ℤ) * orbitStepSeconds)).timestamp
        < (propagate s (now + (j : ℤ) * orbitStepSeconds)).timestamp
      have e1 : (propagate s (now + (i : ℤ) * orbitStepSeconds)).timestamp
          = now + (i : ℤ) * orbitStepSeconds := rfl
      have e2 : (propagate s (now + (j : ℤ) * orbitStepSeconds)).timestamp
          = now + (j : ℤ) * orbitStepSeconds := rfl
      rw [e1, e2]
      unfold orbitStepSeconds
      omega
    · intro p hp
      rw [List.head?_map, List.range_succ_eq_map] at hp
      simp only [List.head?_cons, Option.map_some'] at hp
      have : p = propagate s (now + (0 : ℤ) * orbitStepSeconds) := by
        injection hp with hp2
        exact hp2.symm
      rw [this]
      have e0 : (propagate s (now + (0 : ℤ) * orbitStepSeconds)).timestamp
          = now + (0 : ℤ) * orbitStepSeconds := rfl
      rw [e0]
      omega

/-- The successful 90-minute path for the demo store, named so that the
witness can mention it. -/
def demoOrbitPath : OrbitPath :=
  match get_orbit_path demoStore 44713 90 0 with
  | Except.ok p => p
  | Except.error _ => ⟨0, "", [], 0⟩

/-- Witness for claim C7 at the demo store: the catalog id 44713 is
tracked, the request succeeds, and the sampled path is ordered. -/
theorem get_orbit_path_monotone_witness :
    get_orbit_path demoStore 44713 90 0 = Except.ok demoOrbitPath
    ∧ (demoOrbitPath.points.Pairwise (fun a b => a.timestamp < b.timestamp)
      ∧ ∀ p, demoOrbitPath.points.head? = some p → (0 : ℤ) ≤ p.timestamp) := by
  have h : get_orbit_path demoStore 44713 90 0 = Except.ok demoOrbitPath := rfl
  exact ⟨h, get_orbit_path_monotone demoStore 44713 90 0 demoOrbitPath h⟩

/- ### EO interference analyzer (spec section 4.6; spec-modelled) -/

/-- Modelled from the spec: one sample of the analysis scan, carrying
the elevation of the EO satellite over the target and the number of
constellation satellites inside the interference geometry. -/
structure EOSample where
  elevationDeg : ℚ
  interferers : Nat
  deriving DecidableEq, Repr

/-- Split a list into its maximal runs of elements satisfying the
predicate, dropping the separating elements; the accumulator carries the
current run reversed. -/
def splitRunsAux {α : Type} (p : α → Bool) :
    List α → List α → List (List α)
  | [], acc => if acc.isEmpty then [] else [acc.reverse]
  | x :: xs, acc =>
    if p x then splitRunsAux p xs (x :: acc)
    else if acc.isEmpty then splitRunsAux p xs []
    else acc.reverse :: splitRunsAux p xs []

/-- The maximal runs of elements satisfying the predicate. -/
def splitRuns {α : Type} (p : α → Bool) (l : List α) : List (List α) :=
  splitRunsAux p l []

/-- Modelled from the spec: pass extraction. A pass is a maximal run of
samples whose elevation exceeds the minimum-elevation threshold. -/
def passSamples (minElevationDeg : ℚ) (samples : List EOSample) :
    List (List EOSample) :=
  splitRuns (fun s => decide (minElevationDeg < s.elevationDeg)) samples

/-- A pass is interfered when any of its samples has at least one
interfering satellite. -/
def passInterfered (pass : List EOSample) : Bool :=
  pass.any (fun s => decide (0 < s.interferers))

/-- Modelled from the spec: the summary statistics of the EO analysis
result. -/
structure EOAnalysisResult where
  total_passes : Nat
  clean_passes : Nat
  interfered_passes : Nat
  interference_percentage : ℚ
  deriving DecidableEq, Repr

/-- Modelled from the spec: analyze_eo_interference (the backend EO
analyzer is absent from the shipped sources). Passes are extracted from
the sampled scan, classified clean or interfered, and summarized; the
interference percentage is interfered over total times 100, and 0 when
there is no pass. -/
def analyze_eo_interference (minElevationDeg : ℚ) (samples : List EOSample) :
    EOAnalysisResult :=
  let passes := passSamples minElevationDeg samples
  let total := passes.length
  let interfered := (passes.filter passInterfered).length
  let clean := (passes.filter (fun pass => ! passInterfered pass)).length
  { total_passes := total
    clean_passes := clean
    interfered_passes := interfered
    interference_percentage :=
      if total = 0 then 0 else (interfered : ℚ) / (total : ℚ) * 100 }

/-- Filtering a list by a predicate and by its negation splits its
length. -/
theorem length_filter_add_length_filter_not {α : Type} (p : α → Bool)
    (l : List α) :
    (l.filter p).length + (l.filter (fun x => ! p x)).length = l.length := by
  induction l with
  | nil => simp
  | cons x xs ih =>
    by_cases hx : p x = true
    · have hnx : ¬ ((fun y => ! p y) x = true) := by simp [hx]
      rw [List.filter_cons_of_pos hx,
        @List.filter_cons_of_neg _ (fun y => ! p y) x xs hnx]
      simp only [List.length_cons]
      omega
    · have hx2 : p x = false := by
        cases hpx : p x
        · rfl
        · exact absurd hpx hx
      have hnx : (fun y => ! p y) x = true := by simp [hx2]
      rw [List.filter_cons_of_neg hx,
        @List.filter_cons_of_pos _ (fun y => ! p y) x xs hnx]
      simp only [List.length_cons]
      omega

/-- Claim C1: in every EO interference analysis result, the interfered
and clean pass counts sum to the total pass count, and the interference
percentage equals interfered over total times 100, being 0 when the
total is 0 so that no division by zero occurs. -/
theorem analyze_eo_interference_stats (minElevationDeg : ℚ)
    (samples : List EOSample) :
    (analyze_eo_interference minElevationDeg samples).interfered_passes
      + (analyze_eo_interference minElevationDeg samples).clean_passes
      = (analyze_eo_interference minElevationDeg samples).total_passes
    ∧ ((analyze_eo_interference minElevationDeg samples).total_passes = 0 →
        (analyze_eo_interference minElevationDeg samples).interference_percentage = 0)
    ∧ ((analyze_eo_interference minElevationDeg samples).total_passes ≠ 0 →
        (analyze_eo_interference minElevationDeg samples).interference_percentage
          = ((analyze_eo_interference minElevationDeg samples).interfered_passes : ℚ)
            / ((analyze_eo_interference minElevationDeg samples).total_passes : ℚ)
            * 100) := by
  refine ⟨?_, ?_, ?_⟩
  · simp only [analyze_eo_interference]
    exact length_filter_add_length_filter_not passInterfered
      (passSamples minElevationDeg samples)
  · intro h
    simp only [analyze_eo_interference] at h ⊢
    rw [if_pos h]
  · intro h
    simp only [analyze_eo_interference] at h ⊢
    rw [if_neg h]

/- ### EO analysis request validation (spec sections 4.6 and 7;
spec-modelled) -/

/-- Modelled from the spec: the two caller input errors of the EO
analysis entry point. -/
inductive EOAnalysisError where
  | unknownEOSatellite : String → EOAnalysisError
  | invalidAnalysisWindow : ℚ → EOAnalysisError
  deriving DecidableEq, Repr

/-- Modelled from the spec: both EO analysis failures are caller input
errors, never transient, so neither is retryable. -/
def eoErrorRetryable : EOAnalysisError → Bool := fun _ => false

/-- Modelled from the spec: the parameters of one analysis request the
validation needs. -/
structure EOAnalysisRequest where
  eo_preset : String
  duration_hours : ℚ
  minElevationDeg : ℚ
  deriving DecidableEq, Repr

/-- The upper bound of the allowed analysis window, in hours. -/
def maxAnalysisDurationHours : ℚ := 168

/-- Modelled from the spec: the validated analyze_eo_interference entry
point. The analysis window is checked first (at least one hour, at most
168 hours), then the EO preset against the known presets; a valid
request runs the analysis. -/
def analyze_eo_request (presets : List String) (req : EOAnalysisRequest)
    (samples : List EOSample) : Except EOAnalysisError EOAnalysisResult :=
  if req.duration_hours < 1 ∨ maxAnalysisDurationHours < req.duration_hours then
    Except.error (EOAnalysisError.invalidAnalysisWindow req.duration_hours)
  else if presets.all (fun preset => ! (preset == req.eo_preset)) then
    Except.error (EOAnalysisError.unknownEOSatellite req.eo_preset)
  else
    Except.ok (analyze_eo_interference req.minElevationDeg samples)

/-- Claim C4: a request whose duration exceeds 168 hours fails with the
invalid-analysis-window error, and every error of this entry point is a
caller input error that is never retryable. -/
theorem analyze_eo_request_window_error (presets : List String)
    (req : EOAnalysisRequest) (samples : List EOSample)
    (h : maxAnalysisDurationHours < req.duration_hours) :
    analyze_eo_request presets req samples
      = Except.error (EOAnalysisError.invalidAnalysisWindow req.duration_hours)
    ∧ ∀ e : EOAnalysisError, eoErrorRetryable e = false := by
  constructor
  · unfold analyze_eo_request
    rw [if_pos (Or.inr h)]
  · intro e
    rfl

/-- Witness for claim C4 at a concrete 169-hour request. -/
theorem analyze_eo_request_window_error_witness :
    maxAnalysisDurationHours < (169 : ℚ)
    ∧ (analyze_eo_request ["sentinel-2a"] ⟨"sentinel-2a", 169, 10⟩ []
        = Except.error (EOAnalysisError.invalidAnalysisWindow 169)
      ∧ ∀ e : EOAnalysisError, eoErrorRetryable e = false) :=
  ⟨by decide,
    analyze_eo_request_window_error ["sentinel-2a"] ⟨"sentinel-2a", 169, 10⟩ []
      (by decide)⟩

/- ### Element parser (spec section 4.1; spec-modelled) -/

/-- Modelled from the spec: the element parser failure, citing the
offending line and, for field failures, the offending field. -/
inductive MalformedElementError where
  | badLength : Nat → MalformedElementError
  | badLineMarker : Nat → MalformedElementError
  | checksumMismatch : Nat → MalformedElementError
  | badField : Nat → String → MalformedElementError
  | fieldOutOfRange : Nat → String → MalformedElementError
  deriving DecidableEq, Repr

/-- The checksum contribution of one character: digits count their
value, a minus sign counts 1, all else 0. -/
def checksumVal (c : Char) : Nat :=
  if c.isDigit then digitVal c else if c = '-' then 1 else 0

/-- Modelled from the spec: the mod-10 line checksum. The sum of the
contributions of the first 68 columns, mod 10, must equal the digit in
the last column. -/
def tleChecksumOk (line : String) : Bool :=
  let cs := line.toList
  let body := cs.take 68
  let sum := (body.foldl (fun acc c => acc + checksumVal c) 0) % 10
  match cs.drop 68 with
  | [c] => c.isDigit && decide (digitVal c = sum)
  | _ => false

/-- The fixed-width column slice of a line, from one index up to
another, both zero-based. -/
def sliceChars (line : String) (a b : Nat) : List Char :=
  (line.toList.drop a).take (b - a)

/-- Strip surrounding space padding of a fixed-width field. -/
def trimSpacesList (cs : List Char) : List Char :=
  ((cs.dropWhile (fun c => c = ' ')).reverse.dropWhile
    (fun c => c = ' ')).reverse

/-- A trimmed field consisting of decimal digits only, nonempty. -/
def digitsOnly (cs : List Char) : Bool :=
  !(trimSpacesList cs).isEmpty && (trimSpacesList cs).all Char.isDigit

/-- Parse one decimal numeric field, failing with the offending line
and field name when the trimmed text is not a decimal literal. -/
def fieldQ (lineNo : Nat) (fieldName : String) (cs : List Char) :
    Except MalformedElementError ℚ :=
  match parseSignedDecimal (trimSpacesList cs) with
  | some q => Except.ok q
  | none => Except.error (MalformedElementError.badField lineNo fieldName)

/-- Parse one digits-only field as a natural number. -/
def fieldNat (lineNo : Nat) (fieldName : String) (cs : List Char) :
    Except MalformedElementError Nat :=
  if digitsOnly cs then
    Except.ok (Nat.ofDigits 10 (((trimSpacesList cs).map digitVal).reverse))
  else Except.error (MalformedElementError.badField lineNo fieldName)

/-- Parse the eccentricity field, whose seven digits carry an implied
leading decimal point. -/
def fieldEcc (cs : List Char) : Except MalformedElementError ℚ :=
  if digitsOnly cs then
    Except.ok (((Nat.ofDigits 10 (((trimSpacesList cs).map digitVal).reverse) : ℕ) : ℚ)
      / 10 ^ 7)
  else Except.error (MalformedElementError.badField 2 "eccentricity")

/-- The epoch field, in days with fraction, converted to the integer
second timestamp the orbital state stores. -/
def epochToTimestamp (epochDays : ℚ) : ℤ := ⌊epochDays * 86400⌋

/-- Modelled from the spec: parse_elements. Validates line length, the
line-number markers, both checksums, then decodes the numeric fields,
failing with a MalformedElementError citing the offending line and
field; range checks reject a nonpositive mean motion and an
eccentricity outside the unit interval. The compact drag-term field is
stored as zero, since no claim below constrains it. -/
def parse_elements (name : String) (line1 line2 : String) :
    Except MalformedElementError OrbitalState :=
  if line1.toList.length ≠ 69 then
    Except.error (MalformedElementError.badLength 1)
  else if line2.toList.length ≠ 69 then
    Except.error (MalformedElementError.badLength 2)
  else if line1.toList.head? ≠ some '1' then
    Except.error (MalformedElementError.badLineMarker 1)
  else if line2.toList.head? ≠ some '2' then
    Except.error (MalformedElementError.badLineMarker 2)
  else if ! tleChecksumOk line1 then
    Except.error (MalformedElementError.checksumMismatch 1)
  else if ! tleChecksumOk line2 then
    Except.error (MalformedElementError.checksumMismatch 2)
  else do
    let catalog ← fieldNat 1 "catalog_number" (sliceChars line1 2 7)
    let epochDays ← fieldQ 1 "epoch" (sliceChars line1 18 32)
    let inclination ← fieldQ 2 "inclination" (sliceChars line2 8 16)
    let raan ← fieldQ 2 "raan" (sliceChars line2 17 25)
    let ecc ← fieldEcc (sliceChars line2 26 33)
    let argPerigee ← fieldQ 2 "arg_perigee" (sliceChars line2 34 42)
    let meanAnomaly ← fieldQ 2 "mean_anomaly" (sliceChars line2 43 51)
    let meanMotion ← fieldQ 2 "mean_motion" (sliceChars line2 52 63)
    if meanMotion ≤ 0 then
      Except.error (MalformedElementError.fieldOutOfRange 2 "mean_motion")
    else if ecc < 0 ∨ 1 ≤ ecc then
      Except.error (MalformedElementError.fieldOutOfRange 2 "eccentricity")
    else
      Except.ok
        { catalogId := catalog
          name := name
          constellation := "starlink"
          epoch := epochToTimestamp epochDays
          inclination := inclination
          raan := raan
          eccentricity := ecc
          argPerigee := argPerigee
          meanAnomaly := meanAnomaly
          meanMotion := meanMotion
          dragTerm := 0 }

/-- Whether every numeric field of a record parses, checked on exactly
the slices parse_elements decodes. -/
def recordFieldsParsable (line1 line2 : String) : Bool :=
  digitsOnly (sliceChars line1 2 7)
  && (parseSignedDecimal (trimSpacesList (sliceChars line1 18 32))).isSome
  && (parseSignedDecimal (trimSpacesList (sliceChars line2 8 16))).isSome
  && (parseSignedDecimal (trimSpacesList (sliceChars line2 17 25))).isSome
  && digitsOnly (sliceChars line2 26 33)
  && (parseSignedDecimal (trimSpacesList (sliceChars line2 34 42))).isSome
  && (parseSignedDecimal (trimSpacesList (sliceChars line2 43 51))).isSome
  && (parseSignedDecimal (trimSpacesList (sliceChars line2 52 63))).isSome

/-- A successful bind in the Except monad comes from a successful first
step whose continuation also succeeds. -/
theorem except_bind_ok {ε α β : Type} (x : Except ε α) (f : α → Except ε β)
    (b : β) (h : (x >>= f) = Except.ok b) :
    ∃ a, x = Except.ok a ∧ f a = Except.ok b := by
  cases x with
  | ok a => exact ⟨a, rfl, h⟩
  | error e => exact Except.noConfusion h

/-- A successful numeric field parse means the slice parses. -/
theorem fieldQ_ok_isSome (lineNo : Nat) (fieldName : String) (cs : List Char)
    (q : ℚ) (h : fieldQ lineNo fieldName cs = Except.ok q) :
    (parseSignedDecimal (trimSpacesList cs)).isSome = true := by
  unfold fieldQ at h
  cases hp : parseSignedDecimal (trimSpacesList cs) with
  | some q2 => simp
  | none =>
    rw [hp] at h
    exact Except.noConfusion h

/-- A successful digits-only field parse means the slice is digits. -/
theorem fieldNat_ok_digitsOnly (lineNo : Nat) (fieldName : String)
    (cs : List Char) (n : Nat) (h : fieldNat lineNo fieldName cs = Except.ok n) :
    digitsOnly cs = true := by
  unfold fieldNat at h
  by_cases hd : digitsOnly cs = true
  · exact hd
  · rw [if_neg hd] at h
    exact Except.noConfusion h

/-- A successful eccentricity parse means the slice is digits. -/
theorem fieldEcc_ok_digitsOnly (cs : List Char) (q : ℚ)
    (h : fieldEcc cs = Except.ok q) : digitsOnly cs = true := by
  unfold fieldEcc at h
  by_cases hd : digitsOnly cs = true
  · exact hd
  · rw [if_neg hd] at h
    exact Except.noConfusion h

/-- A record parse_elements accepts has valid checksums on both lines
and every numeric field parsable. -/
theorem parse_elements_ok_implies (name line1 line2 : String)
    (st : OrbitalState)
    (h : parse_elements name line1 line2 = Except.ok st) :
    tleChecksumOk line1 = true ∧ tleChecksumOk line2 = true
    ∧ recordFieldsParsable line1 line2 = true := by
  unfold parse_elements at h
  by_cases h1 : line1.toList.length ≠ 69
  · rw [if_pos h1] at h; exact Except.noConfusion h
  rw [if_neg h1] at h
  by_cases h2 : line2.toList.length ≠ 69
  · rw [if_pos h2] at h; exact Except.noConfusion h
  rw [if_neg h2] at h
  by_cases h3 : line1.toList.head? ≠ some '1'
  · rw [if_pos h3] at h; exact Except.noConfusion h
  rw [if_neg h3] at h
  by_cases h4 : line2.toList.head? ≠ some '2'
  · rw [if_pos h4] at h; exact Except.noConfusion h
  rw [if_neg h4] at h
  by_cases h5 : (! tleChecksumOk line1) = true
  · rw [if_pos h5] at h; exact Except.noConfusion h
  rw [if_neg h5] at h
  by_cases h6 : (! tleChecksumOk line2) = true
  · rw [if_pos h6] at h; exact Except.noConfusion h
  rw [if_neg h6] at h
  obtain ⟨catalog, hc1, h⟩ := except_bind_ok _ _ _ h
  obtain ⟨epochDays, hc2, h⟩ := except_bind_ok _ _ _ h
  obtain ⟨inclination, hc3, h⟩ := except_bind_ok _ _ _ h
  obtain ⟨raan, hc4, h⟩ := except_bind_ok _ _ _ h
  obtain ⟨ecc, hc5, h⟩ := except_bind_ok _ _ _ h
  obtain ⟨argPerigee, hc6, h⟩ := except_bind_ok _ _ _ h
  obtain ⟨meanAnomaly, hc7, h⟩ := except_bind_ok _ _ _ h
  obtain ⟨meanMotion, hc8, h⟩ := except_bind_ok _ _ _ h
  refine ⟨by simpa using h5, by simpa using h6, ?_⟩
  unfold recordFieldsParsable
  rw [fieldNat_ok_digitsOnly _ _ _ _ hc1,
    fieldQ_ok_isSome _ _ _ _ hc2,
    fieldQ_ok_isSome _ _ _ _ hc3,
    fieldQ_ok_isSome _ _ _ _ hc4,
    fieldEcc_ok_digitsOnly _ _ hc5,
    fieldQ_ok_isSome _ _ _ _ hc6,
    fieldQ_ok_isSome _ _ _ _ hc7,
    fieldQ_ok_isSome _ _ _ _ hc8]
  rfl

/-- Claim C3: every record with a corrupted checksum digit on either
line, or with an unparsable numeric field, is rejected by
parse_elements with a MalformedElementError (each of whose variants
cites the offending line, field failures also the field), and no
OrbitalState is returned. -/
theorem parse_elements_rejects_corrupt (name line1 line2 : String)
    (h : tleChecksumOk line1 = false ∨ tleChecksumOk line2 = false
      ∨ recordFieldsParsable line1 line2 = false) :
    ∃ e : MalformedElementError,
      parse_elements name line1 line2 = Except.error e := by
  cases hp : parse_elements name line1 line2 with
  | error e => exact ⟨e, rfl⟩
  | ok st =>
    obtain ⟨hchk1, hchk2, hfields⟩ := parse_elements_ok_implies name line1 line2 st hp
    rcases h with h | h | h
    · rw [hchk1] at h; exact Bool.noConfusion h
    · rw [hchk2] at h; exact Bool.noConfusion h
    · rw [hfields] at h; exact Bool.noConfusion h

/-- A 69-column line with a deliberately wrong checksum digit. -/
def corruptLine1 : String :=
  String.mk ('1' :: (List.replicate 67 ' ' ++ ['9']))

/-- The companion second line, also with a wrong checksum digit. -/
def corruptLine2 : String :=
  String.mk ('2' :: (List.replicate 67 ' ' ++ ['9']))

/-- Witness for claim C3 at a concrete corrupted record. -/
theorem parse_elements_rejects_corrupt_witness :
    (tleChecksumOk corruptLine1 = false ∨ tleChecksumOk corruptLine2 = false
      ∨ recordFieldsParsable corruptLine1 corruptLine2 = false)
    ∧ ∃ e : MalformedElementError,
        parse_elements "STARLINK-TEST" corruptLine1 corruptLine2
          = Except.error e :=
  ⟨Or.inl (by decide),
    parse_elements_rejects_corrupt "STARLINK-TEST" corruptLine1 corruptLine2
      (Or.inl (by decide))⟩
